import Mathlib

/-!
Shallow embedding of `examples/scripts/training.py`, the single-run training
orchestration script of the benchmark_VAE repository: argument parsing with
closed choice lists, dataset loading and normalization, model-configuration
resolution with input_dim injection, encoder/decoder selection per model
family, parameter-count reporting, training-configuration loading and the
final pipeline invocation.  External effects (file loads, JSON parses) are
supplied by a `World` record; `runMain` threads them exactly in the order the
script does and records an event trace.
-/

namespace TrainingScript

/-- The three supported dataset families (argparse choices of `--dataset`,
`training.py` line 29). -/
inductive DatasetFamily where
  | mnist
  | cifar10
  | celeba
deriving DecidableEq, Repr

/-- The CLI token of a dataset family. -/
def DatasetFamily.name : DatasetFamily → String
  | .mnist => "mnist"
  | .cifar10 => "cifar10"
  | .celeba => "celeba"

/-- The seven supported model families (argparse choices of `--model_name`,
`training.py` line 39). -/
inductive ModelFamily where
  | ae
  | vae
  | beta_vae
  | wae
  | vamp
  | hvae
  | rhvae
deriving DecidableEq, Repr

/-- The CLI token of a model family. -/
def ModelFamily.name : ModelFamily → String
  | .ae => "ae"
  | .vae => "vae"
  | .beta_vae => "beta_vae"
  | .wae => "wae"
  | .vamp => "vamp"
  | .hvae => "hvae"
  | .rhvae => "rhvae"

/-- The two data splits the script loads. -/
inductive Split where
  | train
  | evalSplit
deriving DecidableEq, Repr

/-- A numpy array as the script observes it: a shape and the flat element
list (elements as exact rationals). -/
structure NDArray where
  shape : List Nat
  data : List ℚ
deriving DecidableEq, Repr

/-- Element-wise division of an array by a scalar, the semantics of the numpy
broadcast `arr / c` on lines 78 and 80 of `training.py`.  The shape is
untouched and every element is divided, with no clamping. -/
def arrayDiv (a : NDArray) (c : ℚ) : NDArray :=
  { shape := a.shape, data := a.data.map (fun v => v / c) }

/-- A Python exception as observed by the script's handler: `type(e)` rendered
as a string, and `str(e)`. -/
structure PyException where
  typeName : String
  message : String
deriving DecidableEq, Repr

/-- `os.path.join` with a relative second component (every call site in the
script joins an absolute base with relative parts). -/
def joinPath (a b : String) : String := a ++ "/" ++ b

/-- File name of a split inside the dataset folder (lines 78 and 80). -/
def Split.fileName : Split → String
  | .train => "train_data.npz"
  | .evalSplit => "eval_data.npz"

/-- The path of a split's data file: `os.path.join(PATH, f"data/<ds>",
"<split>_data.npz")`, lines 77-80, where `PATH` is the script's directory. -/
def dataFilePath (scriptDir : String) (ds : DatasetFamily) (s : Split) : String :=
  joinPath (joinPath scriptDir ("data/" ++ ds.name)) s.fileName

/-- The bundled default of `--training_config`:
`os.path.join(PATH, "configs/base_training_config.json")`, line 50. -/
def defaultTrainingConfigPath (scriptDir : String) : String :=
  joinPath scriptDir "configs/base_training_config.json"

/-- The message of the exception raised on lines 82-88 when loading either
data file fails; a faithful rendering of the f-string (apostrophes written
as the escape x27). -/
def dataLoadErrorMessage (ds : DatasetFamily) (e : PyException) : String :=
  "Unable to load the data from \x27" ++ "data/" ++ ds.name ++
  "\x27 folder. Please check that both a \x27" ++ "train_data.npz" ++
  "\x27 and \x27" ++ "eval_data.npz" ++
  "\x27 are present in the folder.\n Data must be " ++
  " under the key \x27data\x27, in the range [0-255] and shaped with channel in first " ++
  "position\n" ++
  "Exception raised: " ++ e.typeName ++ " with message: " ++ e.message

/-- A model configuration object as the script manipulates it: the
`input_dim` field it overwrites, plus the remaining family-specific
hyperparameters kept abstract as a key/value list. -/
structure ModelConfig where
  input_dim : Option (List Nat)
  hyper : List (String × String)
deriving DecidableEq, Repr

/-- A parsed training configuration (`BaseTrainingConfig`), kept abstract. -/
structure BaseTrainingConfig where
  raw : List (String × String)
deriving DecidableEq, Repr

/-- The external effects the script performs, supplied as functions: loading
an `.npz` array under the key `data` from a path, a model family's default
configuration constructor (`AEConfig()` etc.), a model family's
`from_json_file` parser, and `BaseTrainingConfig.from_json_file`. -/
structure World where
  loadData : String → Except PyException NDArray
  defaultModelConfig : ModelFamily → ModelConfig
  parseModelConfigFile : ModelFamily → String → Except PyException ModelConfig
  parseTrainingConfigFile : String → Except PyException BaseTrainingConfig

/-- Which encoder constructor a model family's branch uses: `Encoder_AE_*`
for the `ae` (line 112) and `wae` (line 146) branches, `Encoder_VAE_*` for
the `vae` (129), `vamp` (163), `beta_vae` (180), `hvae` (197) and `rhvae`
(214) branches. -/
inductive EncoderKind where
  | encoderAE
  | encoderVAE
deriving DecidableEq, Repr

/-- The encoder constructor selected by each model family's branch of
`main`. -/
def ModelFamily.encoderKind : ModelFamily → EncoderKind
  | .ae => .encoderAE
  | .vae => .encoderVAE
  | .wae => .encoderAE
  | .vamp => .encoderVAE
  | .beta_vae => .encoderVAE
  | .hvae => .encoderVAE
  | .rhvae => .encoderVAE

/-- An encoder instance: which constructor was called, for which dataset
family's benchmark module, and the configuration it received. -/
structure EncoderInstance where
  kind : EncoderKind
  dataset : DatasetFamily
  config : ModelConfig
deriving DecidableEq, Repr

/-- A decoder instance: the shared `Decoder_AE_*` constructor of the dataset
family's benchmark module, and the configuration it received. -/
structure DecoderInstance where
  dataset : DatasetFamily
  config : ModelConfig
deriving DecidableEq, Repr

/-- Calling the selected encoder constructor on a configuration. -/
def buildEncoder (ds : DatasetFamily) (k : EncoderKind) (cfg : ModelConfig) : EncoderInstance :=
  { kind := k, dataset := ds, config := cfg }

/-- Calling the shared decoder constructor (`Decoder_AE_*`) on a
configuration; every model family's branch uses this same constructor. -/
def buildDecoder (ds : DatasetFamily) (cfg : ModelConfig) : DecoderInstance :=
  { dataset := ds, config := cfg }

/-- The assembled model: family tag, the resolved configuration passed as
`model_config=`, and the encoder/decoder instances passed as `encoder=` and
`decoder=` (lines 110-216). -/
structure AssembledModel where
  family : ModelFamily
  model_config : ModelConfig
  encoder : EncoderInstance
  decoder : DecoderInstance
deriving DecidableEq, Repr

/-- One model-family branch of `main` after config resolution: build the
model from the resolved configuration, the family's encoder constructor and
the shared decoder constructor, all applied to the same configuration. -/
def assembleModel (ds : DatasetFamily) (fam : ModelFamily) (cfg : ModelConfig) : AssembledModel :=
  { family := fam
    model_config := cfg
    encoder := buildEncoder ds fam.encoderKind cfg
    decoder := buildDecoder ds cfg }

/-- The config-resolution step common to every model-family branch (e.g.
lines 102-108 for `ae`): if `--model_config` was given, parse the file with
the family's own `from_json_file`, else take the family's default
constructor; then overwrite `input_dim` with the dataset-derived shape. -/
def resolveModelConfig (w : World) (fam : ModelFamily) (configPath : Option String)
    (dim : List Nat) : Except PyException ModelConfig :=
  match configPath with
  | some p => (w.parseModelConfigFile fam p).map (fun c => { c with input_dim := some dim })
  | none => .ok { w.defaultModelConfig fam with input_dim := some dim }

/-- The run-level errors `main` can raise: the `FileNotFoundError` built on
lines 82-88 (the spec's `DataLoadError`: it wraps the underlying exception
via `raise ... from e` and carries the formatted message), an uncaught
exception from a model-config `from_json_file`, and an uncaught exception
from `BaseTrainingConfig.from_json_file`. -/
inductive RunError where
  | dataLoadError (message : String) (cause : PyException)
  | modelConfigError (e : PyException)
  | trainingConfigError (e : PyException)
deriving DecidableEq, Repr

/-- Observable events of a run, in program order. -/
inductive Event where
  | loadAttempt (path : String)
  | buildModel (fam : ModelFamily)
  | reportParams
  | loadTrainingConfig (path : String)
  | invokePipeline
deriving DecidableEq, Repr

/-- Everything handed to the training pipeline on lines 232-240. -/
structure PipelineCall where
  model : AssembledModel
  training_config : BaseTrainingConfig
  train_data : NDArray
  eval_data : NDArray
deriving Repr

/-- Parsed CLI arguments after argparse succeeded: both choice-validated
tokens, the optional model-config path, and the training-config path with
its bundled default applied (line 50). -/
structure Args where
  dataset : DatasetFamily
  model_name : ModelFamily
  model_config : Option String
  training_config : String

/-- The body of `main` (lines 55-240): load and normalize both splits,
derive `data_input_dim = tuple(train_data.shape[1:])`, resolve the model
configuration, assemble the model, report parameter counts, load the
training configuration, and invoke the pipeline.  Returns the outcome and
the ordered event trace. -/
def runMain (scriptDir : String) (w : World) (a : Args) :
    Except RunError PipelineCall × List Event :=
  let trainPath := dataFilePath scriptDir a.dataset .train
  let evalPath := dataFilePath scriptDir a.dataset .evalSplit
  match w.loadData trainPath with
  | .error e =>
      (.error (.dataLoadError (dataLoadErrorMessage a.dataset e) e), [.loadAttempt trainPath])
  | .ok rawTrain =>
    match w.loadData evalPath with
    | .error e =>
        (.error (.dataLoadError (dataLoadErrorMessage a.dataset e) e),
         [.loadAttempt trainPath, .loadAttempt evalPath])
    | .ok rawEval =>
      let train_data := arrayDiv rawTrain 255
      let eval_data := arrayDiv rawEval 255
      let data_input_dim := train_data.shape.tail
      match resolveModelConfig w a.model_name a.model_config data_input_dim with
      | .error e =>
          (.error (.modelConfigError e), [.loadAttempt trainPath, .loadAttempt evalPath])
      | .ok model_config =>
        let model := assembleModel a.dataset a.model_name model_config
        match w.parseTrainingConfigFile a.training_config with
        | .error e =>
            (.error (.trainingConfigError e),
             [.loadAttempt trainPath, .loadAttempt evalPath, .buildModel a.model_name,
              .reportParams, .loadTrainingConfig a.training_config])
        | .ok training_config =>
            (.ok { model := model, training_config := training_config,
                   train_data := train_data, eval_data := eval_data },
             [.loadAttempt trainPath, .loadAttempt evalPath, .buildModel a.model_name,
              .reportParams, .loadTrainingConfig a.training_config, .invokePipeline])

/-- The raw CLI tokens before validation. -/
structure RawArgs where
  dataset : String
  model_name : String
  model_config : Option String
  training_config : Option String

/-- Argparse rejections: a token outside the closed `choices` list of
`--dataset` (the spec's `UnsupportedDatasetError`) or of `--model_name`. -/
inductive ArgError where
  | unsupportedDataset (tok : String)
  | unsupportedModel (tok : String)
deriving DecidableEq, Repr

/-- The `choices` list of `--dataset` (line 29). -/
def datasetChoices : List String := ["mnist", "cifar10", "celeba"]

/-- The `choices` list of `--model_name` (line 39). -/
def modelChoices : List String := ["ae", "vae", "beta_vae", "wae", "vamp", "hvae", "rhvae"]

/-- Recognize a `--dataset` token. -/
def DatasetFamily.ofToken (s : String) : Option DatasetFamily :=
  if s = "mnist" then some .mnist
  else if s = "cifar10" then some .cifar10
  else if s = "celeba" then some .celeba
  else none

/-- Recognize a `--model_name` token. -/
def ModelFamily.ofToken (s : String) : Option ModelFamily :=
  if s = "ae" then some .ae
  else if s = "vae" then some .vae
  else if s = "beta_vae" then some .beta_vae
  else if s = "wae" then some .wae
  else if s = "vamp" then some .vamp
  else if s = "hvae" then some .hvae
  else if s = "rhvae" then some .rhvae
  else none

/-- `ap.parse_args()` (line 53): validate both choice-restricted tokens and
apply the bundled default of `--training_config`.  Rejection happens here,
before `main` runs. -/
def parseArgs (scriptDir : String) (r : RawArgs) : Except ArgError Args :=
  match DatasetFamily.ofToken r.dataset with
  | none => .error (.unsupportedDataset r.dataset)
  | some ds =>
    match ModelFamily.ofToken r.model_name with
    | none => .error (.unsupportedModel r.model_name)
    | some fam =>
        .ok { dataset := ds, model_name := fam, model_config := r.model_config,
              training_config := r.training_config.getD (defaultTrainingConfigPath scriptDir) }

/-- The whole process: argparse at module level, then `main(args)`.  An
argparse rejection produces no run events at all. -/
def fullRun (scriptDir : String) (w : World) (r : RawArgs) :
    Except (ArgError ⊕ RunError) PipelineCall × List Event :=
  match parseArgs scriptDir r with
  | .error e => (.error (.inl e), [])
  | .ok a =>
    match runMain scriptDir w a with
    | (.ok c, t) => (.ok c, t)
    | (.error e, t) => (.error (.inr e), t)

/-- A torch parameter tensor as the counting code on lines 220-222 observes
it: its element count `numel()` and its `requires_grad` flag. -/
structure TorchParam where
  numel : Nat
  requires_grad : Bool
deriving DecidableEq, Repr

/-- `sum(p.numel() for p in ps if p.requires_grad)` (lines 220-222). -/
def countTrainableParams (ps : List TorchParam) : Nat :=
  ((ps.filter fun p => p.requires_grad).map fun p => p.numel).sum

/-- Modelled from the spec: the concrete pythae model classes are not under
`examples/scripts`; per the spec's data model, an Assembled Model is the
tuple (model family, configuration, encoder instance, decoder instance), so
`model.parameters()` is the disjoint union of the encoder's and the
decoder's parameters. -/
def modelParameters (encParams decParams : List TorchParam) : List TorchParam :=
  encParams ++ decParams

/-- The process environment relevant to path resolution: the directory that
contains the script file (`os.path.dirname(os.path.abspath(__file__))`,
line 20) and the process's current working directory, which the script
never consults. -/
structure ProcEnv where
  scriptDir : String
  cwd : String

/-- `PATH` (line 20): the script's own directory, independent of `cwd`. -/
def scriptPATH (env : ProcEnv) : String := env.scriptDir

/-- `sub` occurs as a contiguous substring of `s`. -/
def strContains (s sub : String) : Prop := ∃ u v, s = u ++ sub ++ v

theorem arrayDiv_shape (a : NDArray) (c : ℚ) : (arrayDiv a c).shape = a.shape := rfl

theorem arrayDiv_data (a : NDArray) (c : ℚ) :
    (arrayDiv a c).data = a.data.map (fun v => v / c) := rfl

theorem resolve_ok_input_dim (w : World) (fam : ModelFamily) (configPath : Option String)
    (dim : List Nat) (cfg : ModelConfig)
    (h : resolveModelConfig w fam configPath dim = .ok cfg) :
    cfg.input_dim = some dim := by
  cases configPath with
  | none =>
      simp only [resolveModelConfig, Except.ok.injEq] at h
      rw [← h]
  | some p =>
      simp only [resolveModelConfig] at h
      cases hp : w.parseModelConfigFile fam p with
      | error e => rw [hp] at h; simp [Except.map] at h
      | ok c =>
          rw [hp] at h
          simp only [Except.map, Except.ok.injEq] at h
          rw [← h]

theorem dataLoadErrorMessage_mentions (ds : DatasetFamily) (e : PyException) :
    strContains (dataLoadErrorMessage ds e) ds.name ∧
    strContains (dataLoadErrorMessage ds e) ("data/" ++ ds.name) ∧
    strContains (dataLoadErrorMessage ds e) "train_data.npz" ∧
    strContains (dataLoadErrorMessage ds e) "eval_data.npz" := by
  refine ⟨⟨"Unable to load the data from \x27" ++ "data/",
           "\x27 folder. Please check that both a \x27" ++ "train_data.npz" ++
           "\x27 and \x27" ++ "eval_data.npz" ++
           "\x27 are present in the folder.\n Data must be " ++
           " under the key \x27data\x27, in the range [0-255] and shaped with channel in first " ++
           "position\n" ++
           "Exception raised: " ++ e.typeName ++ " with message: " ++ e.message, ?_⟩,
         ⟨"Unable to load the data from \x27",
           "\x27 folder. Please check that both a \x27" ++ "train_data.npz" ++
           "\x27 and \x27" ++ "eval_data.npz" ++
           "\x27 are present in the folder.\n Data must be " ++
           " under the key \x27data\x27, in the range [0-255] and shaped with channel in first " ++
           "position\n" ++
           "Exception raised: " ++ e.typeName ++ " with message: " ++ e.message, ?_⟩,
         ⟨"Unable to load the data from \x27" ++ "data/" ++ ds.name ++
           "\x27 folder. Please check that both a \x27",
           "\x27 and \x27" ++ "eval_data.npz" ++
           "\x27 are present in the folder.\n Data must be " ++
           " under the key \x27data\x27, in the range [0-255] and shaped with channel in first " ++
           "position\n" ++
           "Exception raised: " ++ e.typeName ++ " with message: " ++ e.message, ?_⟩,
         ⟨"Unable to load the data from \x27" ++ "data/" ++ ds.name ++
           "\x27 folder. Please check that both a \x27" ++ "train_data.npz" ++
           "\x27 and \x27",
           "\x27 are present in the folder.\n Data must be " ++
           " under the key \x27data\x27, in the range [0-255] and shaped with channel in first " ++
           "position\n" ++
           "Exception raised: " ++ e.typeName ++ " with message: " ++ e.message, ?_⟩⟩ <;>
    simp only [dataLoadErrorMessage, String.append_assoc]

theorem runMain_trainFail_eq (scriptDir : String) (w : World) (a : Args) (e : PyException)
    (h1 : w.loadData (dataFilePath scriptDir a.dataset .train) = .error e) :
    runMain scriptDir w a =
      (.error (.dataLoadError (dataLoadErrorMessage a.dataset e) e),
       [.loadAttempt (dataFilePath scriptDir a.dataset .train)]) := by
  simp only [runMain]
  rw [h1]

theorem runMain_evalFail_eq (scriptDir : String) (w : World) (a : Args) (tr : NDArray)
    (e : PyException)
    (h1 : w.loadData (dataFilePath scriptDir a.dataset .train) = .ok tr)
    (h2 : w.loadData (dataFilePath scriptDir a.dataset .evalSplit) = .error e) :
    runMain scriptDir w a =
      (.error (.dataLoadError (dataLoadErrorMessage a.dataset e) e),
       [.loadAttempt (dataFilePath scriptDir a.dataset .train),
        .loadAttempt (dataFilePath scriptDir a.dataset .evalSplit)]) := by
  simp only [runMain]
  rw [h1, h2]

theorem runMain_trainingFail_eq (scriptDir : String) (w : World) (a : Args)
    (tr ev : NDArray) (mc : ModelConfig) (e : PyException)
    (h1 : w.loadData (dataFilePath scriptDir a.dataset .train) = .ok tr)
    (h2 : w.loadData (dataFilePath scriptDir a.dataset .evalSplit) = .ok ev)
    (h3 : resolveModelConfig w a.model_name a.model_config tr.shape.tail = .ok mc)
    (h4 : w.parseTrainingConfigFile a.training_config = .error e) :
    runMain scriptDir w a =
      (.error (.trainingConfigError e),
       [.loadAttempt (dataFilePath scriptDir a.dataset .train),
        .loadAttempt (dataFilePath scriptDir a.dataset .evalSplit),
        .buildModel a.model_name, .reportParams,
        .loadTrainingConfig a.training_config]) := by
  simp only [runMain, arrayDiv_shape]
  rw [h1, h2]
  simp only [arrayDiv_shape]
  rw [h3, h4]

theorem runMain_ok_eq (scriptDir : String) (w : World) (a : Args)
    (tr ev : NDArray) (mc : ModelConfig) (tc : BaseTrainingConfig)
    (h1 : w.loadData (dataFilePath scriptDir a.dataset .train) = .ok tr)
    (h2 : w.loadData (dataFilePath scriptDir a.dataset .evalSplit) = .ok ev)
    (h3 : resolveModelConfig w a.model_name a.model_config tr.shape.tail = .ok mc)
    (h4 : w.parseTrainingConfigFile a.training_config = .ok tc) :
    runMain scriptDir w a =
      (.ok { model := assembleModel a.dataset a.model_name mc, training_config := tc,
             train_data := arrayDiv tr 255, eval_data := arrayDiv ev 255 },
       [.loadAttempt (dataFilePath scriptDir a.dataset .train),
        .loadAttempt (dataFilePath scriptDir a.dataset .evalSplit),
        .buildModel a.model_name, .reportParams,
        .loadTrainingConfig a.training_config, .invokePipeline]) := by
  simp only [runMain]
  rw [h1, h2]
  simp only [arrayDiv_shape]
  rw [h3, h4]

theorem DatasetFamily.ofToken_eq_none (s : String) (h : s ∉ datasetChoices) :
    DatasetFamily.ofToken s = none := by
  simp only [datasetChoices, List.mem_cons, List.not_mem_nil, or_false, not_or] at h
  obtain ⟨h1, h2, h3⟩ := h
  simp [DatasetFamily.ofToken, h1, h2, h3]

theorem runMain_ok_inv (scriptDir : String) (w : World) (a : Args)
    (c : PipelineCall) (t : List Event)
    (h : runMain scriptDir w a = (.ok c, t)) :
    ∃ tr ev mc tc,
      w.loadData (dataFilePath scriptDir a.dataset .train) = .ok tr ∧
      w.loadData (dataFilePath scriptDir a.dataset .evalSplit) = .ok ev ∧
      resolveModelConfig w a.model_name a.model_config tr.shape.tail = .ok mc ∧
      w.parseTrainingConfigFile a.training_config = .ok tc ∧
      c = { model := assembleModel a.dataset a.model_name mc, training_config := tc,
            train_data := arrayDiv tr 255, eval_data := arrayDiv ev 255 } ∧
      t = [.loadAttempt (dataFilePath scriptDir a.dataset .train),
           .loadAttempt (dataFilePath scriptDir a.dataset .evalSplit),
           .buildModel a.model_name, .reportParams,
           .loadTrainingConfig a.training_config, .invokePipeline] := by
  simp only [runMain] at h
  cases h1 : w.loadData (dataFilePath scriptDir a.dataset .train) with
  | error e => rw [h1] at h; simp at h
  | ok tr =>
    rw [h1] at h
    cases h2 : w.loadData (dataFilePath scriptDir a.dataset .evalSplit) with
    | error e => rw [h2] at h; simp at h
    | ok ev =>
      rw [h2] at h
      simp only [arrayDiv_shape] at h
      cases h3 : resolveModelConfig w a.model_name a.model_config tr.shape.tail with
      | error e => rw [h3] at h; simp at h
      | ok mc =>
        rw [h3] at h
        cases h4 : w.parseTrainingConfigFile a.training_config with
        | error e => rw [h4] at h; simp at h
        | ok tc =>
          rw [h4] at h
          simp only [Prod.mk.injEq, Except.ok.injEq] at h
          exact ⟨tr, ev, mc, tc, rfl, rfl, h3, rfl, h.1.symm, h.2.symm⟩

/-- A placeholder script directory for concrete runs. -/
def sampleDir : String := "/repo/examples/scripts"

/-- A concrete mnist-like train array; one element (300) lies outside
[0,255]. -/
def mnistTrainArray : NDArray := { shape := [1000, 1, 28, 28], data := [0, 300, 128] }

/-- A concrete eval array whose per-sample shape deliberately differs from
the train one. -/
def mnistEvalArray : NDArray := { shape := [200, 2, 2], data := [255] }

/-- A concrete file-not-found exception. -/
def fnfExc : PyException :=
  { typeName := "<class FileNotFoundError>", message := "No such file or directory" }

/-- A concrete JSON-decoding exception. -/
def jsonExc : PyException :=
  { typeName := "<class JSONDecodeError>", message := "Expecting value" }

/-- A concrete world in which the mnist data files load, every model-config
file parses (specifying its own input_dim), and the training-config file
parses. -/
def goodWorld : World :=
  { loadData := fun p =>
      if p = dataFilePath sampleDir .mnist .train then .ok mnistTrainArray
      else if p = dataFilePath sampleDir .mnist .evalSplit then .ok mnistEvalArray
      else .error fnfExc,
    defaultModelConfig := fun fam => { input_dim := none, hyper := [(fam.name, "default")] },
    parseModelConfigFile := fun _ p => .ok { input_dim := some [9, 9, 9], hyper := [("loaded_from", p)] },
    parseTrainingConfigFile := fun p => .ok { raw := [("path", p)] } }

/-- A concrete world in which no data file exists. -/
def noDataWorld : World :=
  { goodWorld with loadData := fun _ => .error fnfExc }

/-- A concrete world in which the data loads but the training-config file is
malformed. -/
def badTrainingConfigWorld : World :=
  { goodWorld with parseTrainingConfigFile := fun _ => .error jsonExc }

/-- Concrete parsed arguments: mnist, vae, no model-config override. -/
def vaeArgs : Args :=
  { dataset := .mnist, model_name := .vae, model_config := none,
    training_config := defaultTrainingConfigPath sampleDir }

/-- Concrete parsed arguments: mnist, rhvae, with a model-config file. -/
def rhvaeArgs : Args :=
  { dataset := .mnist, model_name := .rhvae, model_config := some "/tmp/my_config.json",
    training_config := defaultTrainingConfigPath sampleDir }

/-- Claim C1: for every supported model family and every model
configuration — default-constructed or loaded from a syntactically valid
configuration file, regardless of any input_dim the file specifies — after
resolution the configuration's input_dim equals the dataset-derived shape
`tuple(train_data.shape[1:])`; the overwrite is absolute, not merged.
Stated both on the resolution step itself (any family, any file content)
and on a completed run, where the injected dimension is the tail of the
train array's shape. -/
theorem claim_C1_input_dim_overwrite_absolute
    (w : World) (fam : ModelFamily) (configPath : Option String) (dim : List Nat)
    (cfg : ModelConfig)
    (h : resolveModelConfig w fam configPath dim = .ok cfg)
    (scriptDir : String) (a : Args) (c : PipelineCall) (t : List Event) (tr : NDArray)
    (h2 : runMain scriptDir w a = (.ok c, t))
    (h3 : w.loadData (dataFilePath scriptDir a.dataset .train) = .ok tr) :
    cfg.input_dim = some dim ∧
    c.model.model_config.input_dim = some tr.shape.tail := by
  refine ⟨resolve_ok_input_dim w fam configPath dim cfg h, ?_⟩
  obtain ⟨tr2, ev, mc, tc, k1, k2, k3, k4, hc, ht⟩ := runMain_ok_inv _ _ _ _ _ h2
  have htr : tr2 = tr := by
    rw [h3] at k1
    exact (Except.ok.inj k1).symm
  subst htr
  rw [hc]
  exact resolve_ok_input_dim _ _ _ _ _ k3

/-- The configuration the sample world's model-config parser yields for
`rhvaeArgs` after input_dim injection. -/
def rhvaeResolvedConfig : ModelConfig :=
  { input_dim := some [1, 28, 28], hyper := [("loaded_from", "/tmp/my_config.json")] }

/-- The training configuration the sample world parses from the bundled
default path. -/
def sampleTrainingConfig : BaseTrainingConfig :=
  { raw := [("path", defaultTrainingConfigPath sampleDir)] }

/-- The pipeline call of the successful concrete rhvae run. -/
def rhvaeExpectedCall : PipelineCall :=
  { model := assembleModel .mnist .rhvae rhvaeResolvedConfig,
    training_config := sampleTrainingConfig,
    train_data := arrayDiv mnistTrainArray 255,
    eval_data := arrayDiv mnistEvalArray 255 }

/-- The event trace of a successful concrete mnist run with argument set
`a`. -/
def successTrace (a : Args) : List Event :=
  [.loadAttempt (dataFilePath sampleDir .mnist .train),
   .loadAttempt (dataFilePath sampleDir .mnist .evalSplit),
   .buildModel a.model_name, .reportParams,
   .loadTrainingConfig a.training_config, .invokePipeline]

theorem claim_C1_witness :
    rhvaeResolvedConfig.input_dim = some [1, 28, 28] ∧
    rhvaeExpectedCall.model.model_config.input_dim = some mnistTrainArray.shape.tail :=
  claim_C1_input_dim_overwrite_absolute goodWorld .rhvae (some "/tmp/my_config.json")
    [1, 28, 28] rhvaeResolvedConfig rfl sampleDir rhvaeArgs rhvaeExpectedCall
    (successTrace rhvaeArgs) mnistTrainArray rfl rfl

/-- Claim C2: the encoder/decoder selection follows the compatibility-class
table — `ae` and `wae` get the autoencoding encoder constructor, the five
variational families get the variational encoder constructor, and all seven
families get the one shared decoder constructor — and in a completed run
encoder and decoder were both constructed from the same resolved
configuration (the one with input_dim injected). -/
theorem claim_C2_encoder_decoder_selection
    (ds : DatasetFamily) (fam : ModelFamily) (cfg : ModelConfig)
    (scriptDir : String) (w : World) (a : Args) (c : PipelineCall) (t : List Event)
    (h : runMain scriptDir w a = (.ok c, t)) :
    (assembleModel ds fam cfg).encoder = buildEncoder ds fam.encoderKind cfg ∧
    (assembleModel ds fam cfg).decoder = buildDecoder ds cfg ∧
    ModelFamily.encoderKind .ae = .encoderAE ∧
    ModelFamily.encoderKind .wae = .encoderAE ∧
    ModelFamily.encoderKind .vae = .encoderVAE ∧
    ModelFamily.encoderKind .beta_vae = .encoderVAE ∧
    ModelFamily.encoderKind .vamp = .encoderVAE ∧
    ModelFamily.encoderKind .hvae = .encoderVAE ∧
    ModelFamily.encoderKind .rhvae = .encoderVAE ∧
    (assembleModel ds fam cfg).encoder.config = cfg ∧
    (assembleModel ds fam cfg).decoder.config = cfg ∧
    c.model.encoder.config = c.model.model_config ∧
    c.model.decoder.config = c.model.model_config ∧
    c.model.model_config.input_dim ≠ none := by
  obtain ⟨tr, ev, mc, tc, k1, k2, k3, k4, hc, ht⟩ := runMain_ok_inv _ _ _ _ _ h
  subst hc
  refine ⟨rfl, rfl, rfl, rfl, rfl, rfl, rfl, rfl, rfl, rfl, rfl, rfl, rfl, ?_⟩
  rw [show (assembleModel a.dataset a.model_name mc).model_config = mc from rfl,
      resolve_ok_input_dim _ _ _ _ _ k3]
  simp

theorem claim_C2_witness :
    (assembleModel .cifar10 .wae rhvaeResolvedConfig).encoder =
      buildEncoder .cifar10 ModelFamily.wae.encoderKind rhvaeResolvedConfig ∧
    (assembleModel .cifar10 .wae rhvaeResolvedConfig).decoder =
      buildDecoder .cifar10 rhvaeResolvedConfig ∧
    ModelFamily.encoderKind .ae = .encoderAE ∧
    ModelFamily.encoderKind .wae = .encoderAE ∧
    ModelFamily.encoderKind .vae = .encoderVAE ∧
    ModelFamily.encoderKind .beta_vae = .encoderVAE ∧
    ModelFamily.encoderKind .vamp = .encoderVAE ∧
    ModelFamily.encoderKind .hvae = .encoderVAE ∧
    ModelFamily.encoderKind .rhvae = .encoderVAE ∧
    (assembleModel .cifar10 .wae rhvaeResolvedConfig).encoder.config = rhvaeResolvedConfig ∧
    (assembleModel .cifar10 .wae rhvaeResolvedConfig).decoder.config = rhvaeResolvedConfig ∧
    rhvaeExpectedCall.model.encoder.config = rhvaeExpectedCall.model.model_config ∧
    rhvaeExpectedCall.model.decoder.config = rhvaeExpectedCall.model.model_config ∧
    rhvaeExpectedCall.model.model_config.input_dim ≠ none :=
  claim_C2_encoder_decoder_selection .cifar10 .wae rhvaeResolvedConfig sampleDir
    goodWorld rhvaeArgs rhvaeExpectedCall (successTrace rhvaeArgs) rfl

/-- Claim C3: normalization is the unconditional element-wise division by
255, shape-preserving, applied to both loaded arrays; values in [0,255] land
in [0,1], and a value outside [0,255] is passed through unclamped to a value
outside [0,1] (no clamping, no scaling-by-max). -/
theorem claim_C3_normalization_unconditional
    (arr : NDArray) (x : ℚ) (hx : x ∈ arr.data) (hout : x < 0 ∨ 255 < x)
    (scriptDir : String) (w : World) (a : Args) (c : PipelineCall) (t : List Event)
    (tr ev : NDArray)
    (h : runMain scriptDir w a = (.ok c, t))
    (htr : w.loadData (dataFilePath scriptDir a.dataset .train) = .ok tr)
    (hev : w.loadData (dataFilePath scriptDir a.dataset .evalSplit) = .ok ev) :
    (arrayDiv arr 255).shape = arr.shape ∧
    (arrayDiv arr 255).data = arr.data.map (fun v => v / 255) ∧
    x / 255 ∈ (arrayDiv arr 255).data ∧
    (x / 255 < 0 ∨ 1 < x / 255) ∧
    (∀ y : ℚ, 0 ≤ y → y ≤ 255 → 0 ≤ y / 255 ∧ y / 255 ≤ 1) ∧
    c.train_data = arrayDiv tr 255 ∧
    c.eval_data = arrayDiv ev 255 := by
  obtain ⟨tr2, ev2, mc, tc, k1, k2, k3, k4, hc, ht⟩ := runMain_ok_inv _ _ _ _ _ h
  have htr2 : tr2 = tr := by rw [htr] at k1; exact (Except.ok.inj k1).symm
  have hev2 : ev2 = ev := by rw [hev] at k2; exact (Except.ok.inj k2).symm
  subst htr2; subst hev2; subst hc
  refine ⟨rfl, rfl, ?_, ?_, ?_, rfl, rfl⟩
  · exact List.mem_map_of_mem (fun v => v / 255) hx
  · rcases hout with hneg | hbig
    · exact Or.inl (div_neg_of_neg_of_pos hneg (by norm_num))
    · exact Or.inr ((one_lt_div (by norm_num)).mpr hbig)
  · intro y hy0 hy255
    exact ⟨div_nonneg hy0 (by norm_num), (div_le_one (by norm_num)).mpr hy255⟩

theorem claim_C3_witness :
    (arrayDiv mnistTrainArray 255).shape = mnistTrainArray.shape ∧
    (arrayDiv mnistTrainArray 255).data = mnistTrainArray.data.map (fun v => v / 255) ∧
    (300 : ℚ) / 255 ∈ (arrayDiv mnistTrainArray 255).data ∧
    ((300 : ℚ) / 255 < 0 ∨ 1 < (300 : ℚ) / 255) ∧
    (∀ y : ℚ, 0 ≤ y → y ≤ 255 → 0 ≤ y / 255 ∧ y / 255 ≤ 1) ∧
    rhvaeExpectedCall.train_data = arrayDiv mnistTrainArray 255 ∧
    rhvaeExpectedCall.eval_data = arrayDiv mnistEvalArray 255 :=
  claim_C3_normalization_unconditional mnistTrainArray 300 (by simp [mnistTrainArray])
    (by norm_num) sampleDir goodWorld rhvaeArgs rhvaeExpectedCall
    (successTrace rhvaeArgs) mnistTrainArray mnistEvalArray rfl rfl rfl

/-- Claim C4: if loading either the train or the eval array fails for any
reason, the run fails with the data-load error (the `FileNotFoundError`
raised on lines 82-88, the spec's `DataLoadError`) that wraps the underlying
exception as its cause, whose message names the dataset family and the
expected layout (`train_data.npz` and `eval_data.npz` under the dataset
folder), and the failure happens before any model is constructed. -/
theorem claim_C4_data_load_failure
    (scriptDir : String) (w : World) (a : Args) (e : PyException)
    (h : w.loadData (dataFilePath scriptDir a.dataset .train) = .error e ∨
         (∃ tr, w.loadData (dataFilePath scriptDir a.dataset .train) = .ok tr ∧
                w.loadData (dataFilePath scriptDir a.dataset .evalSplit) = .error e)) :
    ∃ t, runMain scriptDir w a =
        (.error (.dataLoadError (dataLoadErrorMessage a.dataset e) e), t) ∧
      (∀ fam, Event.buildModel fam ∉ t) ∧
      Event.invokePipeline ∉ t ∧
      strContains (dataLoadErrorMessage a.dataset e) a.dataset.name ∧
      strContains (dataLoadErrorMessage a.dataset e) ("data/" ++ a.dataset.name) ∧
      strContains (dataLoadErrorMessage a.dataset e) "train_data.npz" ∧
      strContains (dataLoadErrorMessage a.dataset e) "eval_data.npz" := by
  obtain ⟨m1, m2, m3, m4⟩ := dataLoadErrorMessage_mentions a.dataset e
  rcases h with h1 | ⟨tr, h1, h2⟩
  · exact ⟨_, runMain_trainFail_eq scriptDir w a e h1, by simp, by simp, m1, m2, m3, m4⟩
  · exact ⟨_, runMain_evalFail_eq scriptDir w a tr e h1 h2, by simp, by simp, m1, m2, m3, m4⟩

/-- Concrete parsed arguments: cifar10, vae, no overrides. -/
def cifarArgs : Args :=
  { dataset := .cifar10, model_name := .vae, model_config := none,
    training_config := defaultTrainingConfigPath sampleDir }

theorem claim_C4_witness :
    ∃ t, runMain sampleDir noDataWorld cifarArgs =
        (.error (.dataLoadError (dataLoadErrorMessage .cifar10 fnfExc) fnfExc), t) ∧
      (∀ fam, Event.buildModel fam ∉ t) ∧
      Event.invokePipeline ∉ t ∧
      strContains (dataLoadErrorMessage .cifar10 fnfExc) DatasetFamily.cifar10.name ∧
      strContains (dataLoadErrorMessage .cifar10 fnfExc) ("data/" ++ DatasetFamily.cifar10.name) ∧
      strContains (dataLoadErrorMessage .cifar10 fnfExc) "train_data.npz" ∧
      strContains (dataLoadErrorMessage .cifar10 fnfExc) "eval_data.npz" :=
  claim_C4_data_load_failure sampleDir noDataWorld cifarArgs fnfExc (Or.inl rfl)

/-- Claim C5: any `--dataset` token outside the supported set is rejected by
argparse's closed `choices` list before `main` runs: the whole run fails
with the unsupported-dataset rejection, with an empty event trace, so no
data-file access has occurred and the check was not deferred into assembly
logic. -/
theorem claim_C5_unsupported_dataset_fails_fast
    (scriptDir : String) (w : World) (r : RawArgs)
    (h : r.dataset ∉ datasetChoices) :
    fullRun scriptDir w r = (.error (.inl (.unsupportedDataset r.dataset)), []) ∧
    (∀ p, Event.loadAttempt p ∉ (fullRun scriptDir w r).2) := by
  have he : fullRun scriptDir w r = (.error (.inl (.unsupportedDataset r.dataset)), []) := by
    simp only [fullRun, parseArgs, DatasetFamily.ofToken_eq_none r.dataset h]
  exact ⟨he, fun p => by rw [he]; simp⟩

/-- Concrete raw CLI tokens with an unsupported dataset family. -/
def imagenetRaw : RawArgs :=
  { dataset := "imagenet", model_name := "vae", model_config := none, training_config := none }

theorem claim_C5_witness :
    fullRun sampleDir goodWorld imagenetRaw =
      (.error (.inl (.unsupportedDataset "imagenet")), []) ∧
    (∀ p, Event.loadAttempt p ∉ (fullRun sampleDir goodWorld imagenetRaw).2) :=
  claim_C5_unsupported_dataset_fails_fast sampleDir goodWorld imagenetRaw (by decide)

/-- Claim C6: the shape injected into the model configuration is derived
solely from the train split as `train.shape[1:]`, and the eval split's
per-sample shape is never compared against it: the run reaches the pipeline
invocation whatever shape the eval array has (there is no hypothesis
relating the two shapes), and the resolved input_dim is the train shape
tail. -/
theorem claim_C6_shape_from_train_only
    (scriptDir : String) (w : World) (a : Args) (tr ev : NDArray)
    (mc : ModelConfig) (tc : BaseTrainingConfig)
    (h1 : w.loadData (dataFilePath scriptDir a.dataset .train) = .ok tr)
    (h2 : w.loadData (dataFilePath scriptDir a.dataset .evalSplit) = .ok ev)
    (h3 : resolveModelConfig w a.model_name a.model_config tr.shape.tail = .ok mc)
    (h4 : w.parseTrainingConfigFile a.training_config = .ok tc) :
    runMain scriptDir w a =
      (.ok { model := assembleModel a.dataset a.model_name mc, training_config := tc,
             train_data := arrayDiv tr 255, eval_data := arrayDiv ev 255 },
       [.loadAttempt (dataFilePath scriptDir a.dataset .train),
        .loadAttempt (dataFilePath scriptDir a.dataset .evalSplit),
        .buildModel a.model_name, .reportParams,
        .loadTrainingConfig a.training_config, .invokePipeline]) ∧
    mc.input_dim = some tr.shape.tail ∧
    Event.invokePipeline ∈ (runMain scriptDir w a).2 := by
  have he := runMain_ok_eq scriptDir w a tr ev mc tc h1 h2 h3 h4
  exact ⟨he, resolve_ok_input_dim _ _ _ _ _ h3, by rw [he]; simp⟩

/-- The configuration the sample world's default vae configuration resolves
to after input_dim injection. -/
def vaeResolvedConfig : ModelConfig :=
  { input_dim := some [1, 28, 28], hyper := [("vae", "default")] }

theorem claim_C6_witness :
    mnistEvalArray.shape.tail ≠ mnistTrainArray.shape.tail ∧
    (runMain sampleDir goodWorld vaeArgs =
      (.ok { model := assembleModel vaeArgs.dataset vaeArgs.model_name vaeResolvedConfig,
             training_config := sampleTrainingConfig,
             train_data := arrayDiv mnistTrainArray 255,
             eval_data := arrayDiv mnistEvalArray 255 },
       [.loadAttempt (dataFilePath sampleDir vaeArgs.dataset .train),
        .loadAttempt (dataFilePath sampleDir vaeArgs.dataset .evalSplit),
        .buildModel vaeArgs.model_name, .reportParams,
        .loadTrainingConfig vaeArgs.training_config, .invokePipeline]) ∧
     vaeResolvedConfig.input_dim = some mnistTrainArray.shape.tail ∧
     Event.invokePipeline ∈ (runMain sampleDir goodWorld vaeArgs).2) :=
  ⟨by decide,
   claim_C6_shape_from_train_only sampleDir goodWorld vaeArgs mnistTrainArray
     mnistEvalArray vaeResolvedConfig sampleTrainingConfig rfl rfl rfl rfl⟩

/-- Claim C7: with no `--model_config` path the resolved configuration is the
family's default-constructed configuration with only input_dim overwritten;
with a path, the file is parsed by that same family's own parser and then
input_dim is overwritten. -/
theorem claim_C7_default_or_loaded
    (w : World) (fam : ModelFamily) (dim : List Nat) (p : String) (c : ModelConfig)
    (hp : w.parseModelConfigFile fam p = .ok c) :
    resolveModelConfig w fam none dim =
      .ok { w.defaultModelConfig fam with input_dim := some dim } ∧
    resolveModelConfig w fam (some p) dim = .ok { c with input_dim := some dim } := by
  constructor
  · rfl
  · simp only [resolveModelConfig, hp, Except.map]

theorem claim_C7_witness :
    resolveModelConfig goodWorld .beta_vae none [3, 32, 32] =
      .ok { goodWorld.defaultModelConfig .beta_vae with input_dim := some [3, 32, 32] } ∧
    resolveModelConfig goodWorld .beta_vae (some "/tmp/my_config.json") [3, 32, 32] =
      .ok { input_dim := some [3, 32, 32],
            hyper := [("loaded_from", "/tmp/my_config.json")] } :=
  claim_C7_default_or_loaded goodWorld .beta_vae [3, 32, 32] "/tmp/my_config.json"
    { input_dim := some [9, 9, 9], hyper := [("loaded_from", "/tmp/my_config.json")] } rfl

/-- Claim C8: the reported trainable-parameter counts (lines 220-226) for
encoder, decoder and total are positive and satisfy
total = encoder + decoder, the total being counted over `modelParameters`
(modelled from the spec: the assembled model is exactly the
encoder/decoder pair, with no shared parameters). -/
theorem claim_C8_param_counts
    (encParams decParams : List TorchParam)
    (henc : 0 < countTrainableParams encParams)
    (hdec : 0 < countTrainableParams decParams) :
    0 < countTrainableParams encParams ∧
    0 < countTrainableParams decParams ∧
    0 < countTrainableParams (modelParameters encParams decParams) ∧
    countTrainableParams (modelParameters encParams decParams) =
      countTrainableParams encParams + countTrainableParams decParams := by
  have hsum : countTrainableParams (modelParameters encParams decParams) =
      countTrainableParams encParams + countTrainableParams decParams := by
    simp [modelParameters, countTrainableParams, List.filter_append]
  exact ⟨henc, hdec, by omega, hsum⟩

/-- A concrete encoder parameter list: one trainable tensor of 10 elements
and one frozen tensor. -/
def sampleEncParams : List TorchParam :=
  [{ numel := 10, requires_grad := true }, { numel := 5, requires_grad := false }]

/-- A concrete decoder parameter list: one trainable tensor of 7 elements. -/
def sampleDecParams : List TorchParam := [{ numel := 7, requires_grad := true }]

theorem claim_C8_witness :
    0 < countTrainableParams sampleEncParams ∧
    0 < countTrainableParams sampleDecParams ∧
    0 < countTrainableParams (modelParameters sampleEncParams sampleDecParams) ∧
    countTrainableParams (modelParameters sampleEncParams sampleDecParams) =
      countTrainableParams sampleEncParams + countTrainableParams sampleDecParams :=
  claim_C8_param_counts sampleEncParams sampleDecParams (by decide) (by decide)

/-- Claim C9 (implicit): the data files and the bundled default training
configuration are resolved against the directory containing the script
(`PATH`, line 20), not against the process's current working directory:
two environments with the same script directory but arbitrary different
working directories resolve identical paths, laid out as
`<scriptDir>/data/<dataset>/<split file>` and
`<scriptDir>/configs/base_training_config.json`. -/
theorem claim_C9_paths_relative_to_script_dir
    (env1 env2 : ProcEnv) (ds : DatasetFamily) (s : Split)
    (h : env1.scriptDir = env2.scriptDir) :
    dataFilePath (scriptPATH env1) ds s = dataFilePath (scriptPATH env2) ds s ∧
    defaultTrainingConfigPath (scriptPATH env1) = defaultTrainingConfigPath (scriptPATH env2) ∧
    dataFilePath (scriptPATH env1) ds s =
      env1.scriptDir ++ "/" ++ ("data/" ++ ds.name) ++ "/" ++ s.fileName ∧
    defaultTrainingConfigPath (scriptPATH env1) =
      env1.scriptDir ++ "/" ++ "configs/base_training_config.json" := by
  refine ⟨?_, ?_, rfl, rfl⟩ <;>
    simp [dataFilePath, joinPath, scriptPATH, defaultTrainingConfigPath, h]

theorem claim_C9_witness :
    dataFilePath (scriptPATH { scriptDir := "/repo/examples/scripts", cwd := "/home/alice" })
        .celeba .train =
      dataFilePath (scriptPATH { scriptDir := "/repo/examples/scripts", cwd := "/tmp" })
        .celeba .train ∧
    defaultTrainingConfigPath
        (scriptPATH { scriptDir := "/repo/examples/scripts", cwd := "/home/alice" }) =
      defaultTrainingConfigPath
        (scriptPATH { scriptDir := "/repo/examples/scripts", cwd := "/tmp" }) ∧
    dataFilePath (scriptPATH { scriptDir := "/repo/examples/scripts", cwd := "/home/alice" })
        .celeba .train =
      "/repo/examples/scripts" ++ "/" ++ ("data/" ++ DatasetFamily.celeba.name) ++ "/" ++
        Split.train.fileName ∧
    defaultTrainingConfigPath
        (scriptPATH { scriptDir := "/repo/examples/scripts", cwd := "/home/alice" }) =
      "/repo/examples/scripts" ++ "/" ++ "configs/base_training_config.json" :=
  claim_C9_paths_relative_to_script_dir
    { scriptDir := "/repo/examples/scripts", cwd := "/home/alice" }
    { scriptDir := "/repo/examples/scripts", cwd := "/tmp" } .celeba .train rfl

/-- Claim C10 (implicit): the training configuration is parsed only after
the model is assembled and its parameter counts reported, and the pipeline
is invoked only when both assembly and the training-configuration load have
succeeded; a malformed training-configuration file aborts the run after
model construction and before any pipeline invocation.  Stated on the
failing scenario (explicit trace: build and report precede the
training-config load, no pipeline event) and, for every run, pipeline
invocation implies a fully successful outcome. -/
theorem claim_C10_training_config_after_build
    (scriptDir : String) (w : World) (a : Args) (tr ev : NDArray)
    (mc : ModelConfig) (e : PyException)
    (h1 : w.loadData (dataFilePath scriptDir a.dataset .train) = .ok tr)
    (h2 : w.loadData (dataFilePath scriptDir a.dataset .evalSplit) = .ok ev)
    (h3 : resolveModelConfig w a.model_name a.model_config tr.shape.tail = .ok mc)
    (h4 : w.parseTrainingConfigFile a.training_config = .error e) :
    runMain scriptDir w a =
      (.error (.trainingConfigError e),
       [.loadAttempt (dataFilePath scriptDir a.dataset .train),
        .loadAttempt (dataFilePath scriptDir a.dataset .evalSplit),
        .buildModel a.model_name, .reportParams,
        .loadTrainingConfig a.training_config]) ∧
    (∃ pre post, (runMain scriptDir w a).2 =
        pre ++ Event.loadTrainingConfig a.training_config :: post ∧
      Event.buildModel a.model_name ∈ pre ∧ Event.reportParams ∈ pre) ∧
    Event.invokePipeline ∉ (runMain scriptDir w a).2 ∧
    (∀ (sd2 : String) (w2 : World) (a2 : Args),
      Event.invokePipeline ∈ (runMain sd2 w2 a2).2 →
        ∃ c2, (runMain sd2 w2 a2).1 = .ok c2) := by
  have he := runMain_trainingFail_eq scriptDir w a tr ev mc e h1 h2 h3 h4
  refine ⟨he, ?_, ?_, ?_⟩
  · refine ⟨[.loadAttempt (dataFilePath scriptDir a.dataset .train),
             .loadAttempt (dataFilePath scriptDir a.dataset .evalSplit),
             .buildModel a.model_name, .reportParams], [], ?_, by simp, by simp⟩
    rw [he]
    rfl
  · rw [he]; simp
  · intro sd2 w2 a2
    simp only [runMain]
    cases k1 : w2.loadData (dataFilePath sd2 a2.dataset .train) with
    | error e2 => simp
    | ok tr2 =>
      cases k2 : w2.loadData (dataFilePath sd2 a2.dataset .evalSplit) with
      | error e2 => simp
      | ok ev2 =>
        simp only [arrayDiv_shape]
        cases k3 : resolveModelConfig w2 a2.model_name a2.model_config tr2.shape.tail with
        | error e2 => simp
        | ok mc2 =>
          cases k4 : w2.parseTrainingConfigFile a2.training_config with
          | error e2 => simp
          | ok tc2 => simp

theorem claim_C10_witness :
    runMain sampleDir badTrainingConfigWorld vaeArgs =
      (.error (.trainingConfigError jsonExc),
       [.loadAttempt (dataFilePath sampleDir vaeArgs.dataset .train),
        .loadAttempt (dataFilePath sampleDir vaeArgs.dataset .evalSplit),
        .buildModel vaeArgs.model_name, .reportParams,
        .loadTrainingConfig vaeArgs.training_config]) ∧
    (∃ pre post, (runMain sampleDir badTrainingConfigWorld vaeArgs).2 =
        pre ++ Event.loadTrainingConfig vaeArgs.training_config :: post ∧
      Event.buildModel vaeArgs.model_name ∈ pre ∧ Event.reportParams ∈ pre) ∧
    Event.invokePipeline ∉ (runMain sampleDir badTrainingConfigWorld vaeArgs).2 ∧
    (∀ (sd2 : String) (w2 : World) (a2 : Args),
      Event.invokePipeline ∈ (runMain sd2 w2 a2).2 →
        ∃ c2, (runMain sd2 w2 a2).1 = .ok c2) :=
  claim_C10_training_config_after_build sampleDir badTrainingConfigWorld vaeArgs
    mnistTrainArray mnistEvalArray vaeResolvedConfig jsonExc rfl rfl rfl rfl

end TrainingScript
